import Mathlib

/-!
Verification of the simulation-adapter repository.

Shallow embedding of `mm_final_energy_sim.py` and `simulation_adapter.py`.
Strings are modelled as Lean `String` (lists of characters); Python `float`
values are modelled as exact rationals (`ℚ`); the object store is modelled
as an association list from keys to grid documents; external collaborators
(the S3 client transport, the EnergyPlus process, sqlite and the csv reader)
appear only at their boundaries: an S3 environment is the list of object
keys it contains, an engine invocation is an oracle from the artifact key to
either an output directory or a raised error message, and delimited report
files are given as their already-split rows of cells.
-/

/-! ## Python string primitives used by the source -/

/-- ASCII case folding, as used by `str.lower()` on the identifiers handled
by this module (all relevant inputs are ASCII). -/
def pyLower (s : String) : String := ⟨s.data.map Char.toLower⟩

/-- ASCII case raising, as used by `str.upper()`. -/
def pyUpper (s : String) : String := ⟨s.data.map Char.toUpper⟩

/-- The whitespace characters stripped by `str.strip()`. -/
def pySpace (c : Char) : Bool :=
  c = ' ' || c = '\t' || c = '\n' || c = '\x0d' || c = '\x0b' || c = '\x0c'

/-- `str.strip()`: remove leading and trailing whitespace. -/
def pyStrip (s : String) : String :=
  ⟨((s.data.dropWhile pySpace).reverse.dropWhile pySpace).reverse⟩

/-- Does the pattern list begin the given list? -/
def listStartsW : List Char → List Char → Bool
  | [], _ => true
  | _ :: _, [] => false
  | p :: ps, c :: cs => p = c && listStartsW ps cs

/-- `s.startswith(p)` on strings. -/
def strStartsW (p s : String) : Bool := listStartsW p.data s.data

/-- `s.endswith(p)` on strings. -/
def strEndsW (p s : String) : Bool := listStartsW p.data.reverse s.data.reverse

/-- Occurrence of a pattern as a contiguous sublist. -/
def listHasSub : List Char → List Char → Bool
  | p, [] => p.isEmpty
  | p, c :: cs => listStartsW p (c :: cs) || listHasSub p cs

/-- The Python substring test `p in s`. -/
def pyInStr (p s : String) : Bool := listHasSub p.data s.data

/-- Worker for `listReplace`; the first argument is recursion fuel, always
instantiated with the length of the list so that it never runs out (every
step consumes at least one character). -/
def listReplaceAux (pat rep : List Char) : Nat → List Char → List Char
  | 0, s => s
  | _ + 1, [] => []
  | fuel + 1, c :: cs =>
    if pat ≠ [] ∧ listStartsW pat (c :: cs) then
      rep ++ listReplaceAux pat rep fuel (List.drop (pat.length - 1) cs)
    else
      c :: listReplaceAux pat rep fuel cs

/-- Replace every non-overlapping occurrence of `pat` (nonempty in all uses
made by the source) left to right, as `str.replace(pat, rep)` does. -/
def listReplace (pat rep s : List Char) : List Char := listReplaceAux pat rep s.length s

/-- `s.replace(pat, rep)` on strings. -/
def pyReplace (s pat rep : String) : String := ⟨listReplace pat.data rep.data s.data⟩

/-- `key.rsplit("/", 1)[-1]`: the segment after the last slash (the whole
string when no slash occurs). -/
def lastSlashSeg (s : String) : String :=
  ⟨(s.data.reverse.takeWhile (fun c => c ≠ '/')).reverse⟩

/-! ## `_safe_float`: numeric parsing (mm_final_energy_sim.py lines 127-131) -/

/-- Value of an ASCII digit. -/
def digitVal (c : Char) : Nat := c.toNat - 48

/-- The number denoted by a list of ASCII digits. -/
def natOfDigits (ds : List Char) : Nat := ds.foldl (fun n c => n * 10 + digitVal c) 0

/-- The exponent part of a Python float literal: empty input means exponent 0,
otherwise `e`/`E`, an optional sign and a nonempty digit run consuming the
whole remainder. Returns the signed exponent when well-formed. -/
def pyFloatExp : List Char → Option Int
  | [] => some 0
  | e :: r =>
    if e = 'e' ∨ e = 'E' then
      let (esgn, r2) : Int × List Char :=
        match r with
        | '+' :: t => (1, t)
        | '-' :: t => (-1, t)
        | t => (1, t)
      let ed := r2.takeWhile Char.isDigit
      if ed ≠ [] ∧ r2.dropWhile Char.isDigit = [] then
        some (esgn * (natOfDigits ed : Int))
      else none
    else none

/-- The value denoted by a Python float literal `[sign] (digits [. digits] | . digits)
[exponent]`, as accepted by `float(...)` on the numeric report cells handled
here; exact decimal semantics over `ℚ` (the special forms `inf`/`nan` and
underscore digit separators do not occur in the inputs considered). -/
def pyFloatOfChars (cs : List Char) : Option ℚ :=
  let (sgn, cs1) : Int × List Char :=
    match cs with
    | '+' :: r => (1, r)
    | '-' :: r => (-1, r)
    | r => (1, r)
  let ip := cs1.takeWhile Char.isDigit
  let cs2 := cs1.dropWhile Char.isDigit
  let (fp, cs3) : List Char × List Char :=
    match cs2 with
    | '.' :: r => (r.takeWhile Char.isDigit, r.dropWhile Char.isDigit)
    | _ => ([], cs2)
  if ip = [] ∧ fp = [] then none
  else
    match pyFloatExp cs3 with
    | none => none
    | some ev =>
      let m : Int := sgn * ((natOfDigits ip : Int) * 10 ^ fp.length + (natOfDigits fp : Int))
      let base : ℚ := (m : ℚ) / ((10 : ℚ) ^ fp.length)
      some (if 0 ≤ ev then base * (10 : ℚ) ^ ev.toNat else base / (10 : ℚ) ^ (-ev).toNat)

/-- `_safe_float`: `float(str(s).replace(",", "").strip())`, with any parse
failure mapped to an absent value. -/
def safe_float (s : String) : Option ℚ :=
  pyFloatOfChars (pyStrip (pyReplace s "," "")).data

/-! ## Filename patterns (mm_final_energy_sim.py lines 38-59) -/

def YEARS_START : Int := 2025

def YEARS_END : Int := 2084

/-- The year token `(20[2-7]\d|208[0-4])`: the first alternative is tried
first; both consume four characters. Returns the year and the remainder. -/
def matchYearTok : List Char → Option (Nat × List Char)
  | '2' :: '0' :: c3 :: c4 :: rest =>
    if ('2' ≤ c3 ∧ c3 ≤ '7') ∧ c4.isDigit then
      some (natOfDigits ['2', '0', c3, c4], rest)
    else if c3 = '8' ∧ ('0' ≤ c4 ∧ c4 ≤ '4') then
      some (natOfDigits ['2', '0', c3, c4], rest)
    else none
  | _ => none

/-- `$` with no MULTILINE flag: end of string, or just before one final
newline. -/
def pyEndAnchor : List Char → Bool
  | [] => true
  | ['\n'] => true
  | _ => false

/-- The literal tail `\.idf$` of `IDF_NAME_RE`, case-insensitively. -/
def matchIdfTail : List Char → Bool
  | '.' :: a :: b :: c :: rest =>
    a.toLower = 'i' && b.toLower = 'd' && c.toLower = 'f' && pyEndAnchor rest
  | _ => false

/-- The part `_(20[2-7]\d|208[0-4])\.idf$` following the aging group:
returns the year on success. -/
def matchIdfAfterAging : List Char → Option Nat
  | '_' :: rest =>
    match matchYearTok rest with
    | some (y, rest2) => if matchIdfTail rest2 then some y else none
    | none => none
  | _ => none

/-- The aging number `(?:[12]?\d|2[0-8])` with the continuation
`matchIdfAfterAging`, in backtracking order: the greedy two-character form of
`[12]?\d` first, then its one-character form, then `2[0-8]` (which the first
alternative makes unreachable). Returns the digit characters consumed and
the year matched by the continuation. -/
def matchAgingNum (cs : List Char) : Option (List Char × Nat) :=
  (match cs with
   | a :: b :: rest =>
     if (a = '1' ∨ a = '2') ∧ b.isDigit then
       (matchIdfAfterAging rest).map (fun y => ([a, b], y))
     else none
   | _ => none).orElse fun _ =>
  (match cs with
   | a :: rest =>
     if a.isDigit then (matchIdfAfterAging rest).map (fun y => ([a], y)) else none
   | _ => none).orElse fun _ =>
  match cs with
  | a :: b :: rest =>
    if a = '2' ∧ ('0' ≤ b ∧ b ≤ '8') then
      (matchIdfAfterAging rest).map (fun y => ([a, b], y))
    else none
  | _ => none

/-- The scenario digits `(?:8\.5|4\.5|2\.6)` following the letters `RCP`:
returns the three characters consumed and the remainder. -/
def matchScenDigits : List Char → Option (List Char × List Char)
  | a :: b :: c :: rest =>
    if b = '.' ∧ ((a = '8' ∧ c = '5') ∨ (a = '4' ∧ c = '5') ∨ (a = '2' ∧ c = '6')) then
      some ([a, b, c], rest)
    else none
  | _ => none

/-- Full anchored match of `IDF_NAME_RE` =
`^(RCP(?:8\.5|4\.5|2\.6))_([EFT](?:[12]?\d|2[0-8]))_(20[2-7]\d|208[0-4])\.idf$`
with `re.IGNORECASE`, returning the three capture groups (scenario and aging
as the exact characters matched, the year parsed). -/
def idfNameMatch (s : String) : Option (String × String × Nat) :=
  match s.data with
  | r :: c :: p :: rest =>
    if r.toLower = 'r' ∧ c.toLower = 'c' ∧ p.toLower = 'p' then
      match matchScenDigits rest with
      | some (sd, rest2) =>
        match rest2 with
        | '_' :: l :: rest3 =>
          if l.toLower = 'e' ∨ l.toLower = 'f' ∨ l.toLower = 't' then
            match matchAgingNum rest3 with
            | some (num, y) => some (⟨[r, c, p] ++ sd⟩, ⟨l :: num⟩, y)
            | none => none
          else none
        | _ => none
      | none => none
    else none
  | _ => none

/-- `parse_idf_filename`: match against `IDF_NAME_RE` and uppercase the
scenario and aging groups; `none` models the raised `ValueError`. -/
def parse_idf_filename (name : String) : Option (String × String × Nat) :=
  (idfNameMatch name).map fun g => (pyUpper g.1, pyUpper g.2.1, g.2.2)

/-- The scenario group `(RCP(?:85|45|26))` of `EPW_NAME_RE`: returns the five
characters consumed and the remainder. -/
def matchEpwScen : List Char → Option (List Char × List Char)
  | r :: c :: p :: a :: b :: rest =>
    if r.toLower = 'r' ∧ c.toLower = 'c' ∧ p.toLower = 'p' ∧
        ((a = '8' ∧ b = '5') ∨ (a = '4' ∧ b = '5') ∨ (a = '2' ∧ b = '6')) then
      some ([r, c, p, a, b], rest)
    else none
  | _ => none

/-- The literal tail `\.epw$` of `EPW_NAME_RE`, case-insensitively. -/
def matchEpwTail : List Char → Bool
  | '.' :: a :: b :: c :: rest =>
    a.toLower = 'e' && b.toLower = 'p' && c.toLower = 'w' && pyEndAnchor rest
  | _ => false

/-- Full anchored match of `EPW_NAME_RE` =
`^Rotterdam_(RCP(?:85|45|26))_(20[2-7]\d|208[0-4])\.epw$` with
`re.IGNORECASE`, returning the scenario group and the year. -/
def epwNameMatch (s : String) : Option (String × Nat) :=
  if listStartsW "rotterdam_".data (s.data.map Char.toLower) then
    match matchEpwScen (s.data.drop 10) with
    | some (sc, rest) =>
      match rest with
      | '_' :: rest2 =>
        match matchYearTok rest2 with
        | some (y, rest3) => if matchEpwTail rest3 then some (⟨sc⟩, y) else none
        | none => none
      | _ => none
    | none => none
  else none

/-! ## Scenario normalization (mm_final_energy_sim.py lines 50-52) -/

/-- `map_rcp_dot_to_nodot`: uppercase, drop spaces, then rewrite each dotted
scenario number to its undotted form. -/
def map_rcp_dot_to_nodot (rcp : String) : String :=
  let r := pyReplace (pyUpper rcp) " " ""
  pyReplace (pyReplace (pyReplace r "8.5" "85") "4.5" "45") "2.6" "26"

/-! ## Structured-query extraction (mm_final_energy_sim.py lines 133-164)

The sqlite file is modelled by the rows of its `TabularDataWithStrings`
table in table order; `fetchone` returns the first row satisfying the
query's conditions.  The patterns `LIKE 'x%%'` reduce to case-insensitive
well-known-phrase tests after `lower()` is applied. -/

structure SqlRow where
  tableName : String
  rowName : String
  colName : String
  value : String

/-- `fetch_from_sql`: two lookups against `TabularDataWithStrings`; a missing
file yields `(None, None)`. -/
def fetch_from_sql (file : Option (List SqlRow)) : Option ℚ × Option ℚ :=
  match file with
  | none => (none, none)
  | some db =>
    let row1 := db.find? fun r =>
      strStartsW "site and source energy" (pyLower r.tableName) &&
      pyLower r.rowName == "total site energy" &&
      strStartsW "total energy" (pyLower r.colName)
    let total := match row1 with
      | some r => safe_float r.value
      | none => none
    let row2 := db.find? fun r =>
      strStartsW "site and source energy" (pyLower r.tableName) &&
      pyLower r.rowName == "total site energy" &&
      strStartsW "energy per total building area" (pyLower r.colName)
    let perArea := match row2 with
      | some r => safe_float r.value
      | none => none
    (total, perArea)

/-! ## Delimited-text extraction (mm_final_energy_sim.py lines 166-198)

A report file is modelled as its rows of cells as produced by `csv.reader`
(the delimiter is a transport detail of that external reader); the function
first strips every cell, as the source's load comprehension does. -/

/-- Does some cell of the row contain the phrase, case-insensitively? -/
def rowHasPhrase (phrase : String) (r : List String) : Bool :=
  r.any fun c => pyInStr phrase (pyLower c)

/-- The scan below the header row: stop at the first blank row, extract from
the first row whose first cell is `total site energy`; out-of-range column
indices give an absent value.  `none` means the loop fell through and the
enclosing subsection search continues. -/
def dataRowScan (colT colP : Nat) : List (List String) → Option (Option ℚ × Option ℚ)
  | [] => none
  | r2 :: rest =>
    if r2.isEmpty || r2.all (fun c => c = "") then none
    else if pyLower (pyStrip (r2.headD "")) = "total site energy" then
      some (if colT < r2.length then safe_float (r2.getD colT "") else none,
            if colP < r2.length then safe_float (r2.getD colP "") else none)
    else dataRowScan colT colP rest

/-- First index in the list satisfying the test. -/
def firstIdxWhere (p : Nat → Bool) : List Nat → Option Nat
  | [] => none
  | k :: rest => if p k then some k else firstIdxWhere p rest

/-- Is row `k` a header row: it must contain both a `total energy` cell and
an `energy per total building area` cell, case-insensitively. -/
def hdrCond (rows : List (List String)) (k : Nat) : Bool :=
  let hdr := (rows.getD k []).map pyLower
  (hdr.any fun c => pyInStr "total energy" c) &&
  (hdr.any fun c => pyInStr "energy per total building area" c)

/-- The attempt made once a subsection row is found at index `j`: search the
header within `range(j+1, min(j+15, len(rows)))`, fix the two column
indices, then scan the data rows; `none` resumes the subsection search. -/
def attemptAtSub (rows : List (List String)) (j : Nat) : Option (Option ℚ × Option ℚ) :=
  match firstIdxWhere (hdrCond rows) (List.range' (j + 1) (min (j + 15) rows.length - (j + 1))) with
  | none => none
  | some k =>
    let header := (rows.getD k []).map pyLower
    match List.findIdx? (fun c => pyInStr "total energy" c) header,
          List.findIdx? (fun c => pyInStr "energy per total building area" c) header with
    | some colT, some colP => dataRowScan colT colP (rows.drop (k + 1))
    | _, _ => none

/-- The loop over `range(i+1, min(i+40, len(rows)))` looking for a subsection
row; a failed attempt continues with the next candidate `j`. -/
def jScan (rows : List (List String)) : List Nat → Option (Option ℚ × Option ℚ)
  | [] => none
  | j :: rest =>
    if rowHasPhrase "site and source energy" (rows.getD j []) then
      match attemptAtSub rows j with
      | some res => some res
      | none => jScan rows rest
    else jScan rows rest

/-- The outer loop over all rows looking for the section-title row; a failed
inner search continues with the next candidate title row. -/
def iScan (rows : List (List String)) : List Nat → Option (Option ℚ × Option ℚ)
  | [] => none
  | i :: rest =>
    if rowHasPhrase "annual building utility performance summary" (rows.getD i []) then
      match jScan rows (List.range' (i + 1) (min (i + 40) rows.length - (i + 1))) with
      | some res => some res
      | none => iScan rows rest
    else iScan rows rest

/-- `_fetch_from_tabular_text`: a missing file yields `(None, None)`, and so
does every fall-through of the marker searches. -/
def fetch_from_tabular_text (file : Option (List (List String))) : Option ℚ × Option ℚ :=
  match file with
  | none => (none, none)
  | some raw =>
    let rows := raw.map fun r => r.map pyStrip
    (iScan rows (List.range rows.length)).getD (none, none)

/-! ## Ordered extraction fallback (mm_final_energy_sim.py lines 200-214) -/

/-- An engine output directory, described by the three candidate result
files the extraction chain may consult: `eplusout.sql`, `eplustbl.tab` and
`eplustbl.csv`; `none` is an absent file. -/
structure OutDir where
  sqlFile : Option (List SqlRow)
  tabFile : Option (List (List String))
  csvFile : Option (List (List String))

/-- `fetch_metrics_any`: structured file first (when present), then the tab
report, then the comma report; the first pair with a present component is
returned with its format tag, else `(None, None, "none")`. -/
def fetch_metrics_any (d : OutDir) : Option ℚ × Option ℚ × String :=
  let sqlStep : Option (Option ℚ × Option ℚ × String) :=
    if d.sqlFile.isSome then
      let tp := fetch_from_sql d.sqlFile
      if tp.1.isSome || tp.2.isSome then some (tp.1, tp.2, "sql") else none
    else none
  match sqlStep with
  | some r => r
  | none =>
    let tp := fetch_from_tabular_text d.tabFile
    if tp.1.isSome || tp.2.isSome then (tp.1, tp.2, "tab")
    else
      let tp2 := fetch_from_tabular_text d.csvFile
      if tp2.1.isSome || tp2.2.isSome then (tp2.1, tp2.2, "csv")
      else (none, none, "none")

/-- The three extraction strategies of an output directory, in the priority
order fixed by the source, each tagged with its source-format name. -/
def stratList (d : OutDir) : List ((Option ℚ × Option ℚ) × String) :=
  [(fetch_from_sql d.sqlFile, "sql"),
   (fetch_from_tabular_text d.tabFile, "tab"),
   (fetch_from_tabular_text d.csvFile, "csv")]

/-- The spec's description of extraction, stated in its own words for the
refinement claim: return the result of the first strategy that yields at
least one non-absent value, tagged with that strategy's format; if no
strategy yields a value the result is `(none, none)` with format `none`. -/
def extractMetricsSpec (d : OutDir) : Option ℚ × Option ℚ × String :=
  match (stratList d).find? (fun r => r.1.1.isSome || r.1.2.isSome) with
  | some r => (r.1.1, r.1.2, r.2)
  | none => (none, none, "none")

/-- A comma-delimited report carrying a complete ABUPS table. -/
def egCsvRows : List (List String) :=
  [["Table of Contents"],
   ["Annual Building Utility Performance Summary"],
   ["x"],
   ["Site and Source Energy"],
   ["", "Total Energy [kWh]", "Energy Per Total Building Area [kWh/m2]"],
   ["Total Site Energy", "1235", "45"],
   []]

/-- A structured result file carrying both metric rows. -/
def egSqlDb : List SqlRow :=
  [⟨"Site and Source Energy Summary", "Total Site Energy", "Total Energy [GJ]", "450.5"⟩,
   ⟨"Site and Source Energy Summary", "Total Site Energy",
    "Energy Per Total Building Area [MJ/m2]", "1202.75"⟩]

/-! ## Result matrices (mm_final_energy_sim.py lines 216-265)

A worksheet is modelled as a cell map: an association list from `(row, col)`
coordinates to values where the most recent binding wins, which realises
openpyxl's mutable cell assignment.  The object store is likewise a key-to-
document association list where the most recent upload wins.  Column widths
are presentation metadata with no observable reading in the source and are
not modelled. -/

inductive CellValue where
  | s (v : String)
  | n (v : ℚ)
deriving DecidableEq

abbrev WB := List ((Nat × Nat) × CellValue)

/-- `ws.cell(row=r, column=c).value`: `none` when the cell was never set. -/
def getCell (wb : WB) (r c : Nat) : Option CellValue :=
  (List.find? (fun e => e.1 = (r, c)) wb).map (·.2)

/-- `ws.cell(row=r, column=c, value=v)`. -/
def setCell (wb : WB) (r c : Nat) (v : CellValue) : WB := ((r, c), v) :: wb

/-- `ws.max_column or 1`: the largest column holding a cell, at least 1. -/
def maxColW (wb : WB) : Nat := List.foldr (fun e m => max e.1.2 m) 1 wb

/-- `(ws.cell(...).value or "").strip()` on a header coordinate: an unset
cell reads as the empty string.  Header cells written by this module are
always strings, so the numeric case cannot be observed here. -/
def hdrCell (wb : WB) (r c : Nat) : String :=
  match getCell wb r c with
  | some (.s v) => pyStrip v
  | _ => ""

/-- `_init_workbook`: `A1 = "Year"`, `A2 = ""`, and the year column
pre-populated over the fixed range starting at row 3. -/
def init_workbook : WB :=
  ((List.range (YEARS_END.toNat - YEARS_START.toNat + 1)).map fun k =>
    (((3 + k : Nat), (1 : Nat)), CellValue.n ((YEARS_START + k : ℤ) : ℚ))) ++
  [((2, 1), CellValue.s ""), ((1, 1), CellValue.s "Year")]

/-- The scan `for col in range(2, max_col + 1)` of `_col_for_pair`, given the
explicit list of candidate columns. -/
def scanCols (wb : WB) (climate aging : String) : List Nat → Option Nat
  | [] => none
  | col :: rest =>
    if hdrCell wb 1 col = climate ∧ hdrCell wb 2 col = aging then some col
    else scanCols wb climate aging rest

/-- `_col_for_pair`: reuse the first column whose stripped header pair equals
the arguments, else append a new column and write its two header cells;
returns the possibly updated worksheet and the resolved column. -/
def col_for_pair (wb : WB) (climate aging : String) : WB × Nat :=
  let mc := maxColW wb
  match scanCols wb climate aging (List.range' 2 (mc - 1)) with
  | some col => (wb, col)
  | none =>
    let col := if 2 ≤ mc then mc + 1 else 2
    (setCell (setCell wb 1 col (.s climate)) 2 col (.s aging), col)

/-- `_row_for_year`: hard error outside the fixed year range, else the fixed
offset addressing. -/
def row_for_year (year : Int) : Except String Nat :=
  if year < YEARS_START ∨ year > YEARS_END then
    .error ("Year " ++ toString year ++ " outside [" ++ toString YEARS_START ++ ", " ++
      toString YEARS_END ++ "]")
  else .ok (3 + (year - YEARS_START).toNat)

abbrev Store := List (String × WB)

/-- `object_exists`/`get_object` combined: the document currently stored at
a key. -/
def getStore (st : Store) (key : String) : Option WB :=
  (List.find? (fun e => e.1 = key) st).map (·.2)

/-- `_upload_workbook`/`put_object`: store a document at a key. -/
def putStore (st : Store) (key : String) (wb : WB) : Store := (key, wb) :: st

/-- `_download_workbook_or_create`: the stored document, or a freshly
initialised one when the key is absent. -/
def download_workbook_or_create (st : Store) (key : String) : WB :=
  (getStore st key).getD init_workbook

/-- `write_result_to_s3`: absent value is an immediate no-op; otherwise a
full read-modify-write cycle whose upload happens only after both addresses
resolve.  Returns the resulting store and the raised error message, if any
(a raised error leaves the store as it was, since the upload is never
reached). -/
def write_result_to_s3 (st : Store) (key climate aging : String) (year : Int)
    (value : Option ℚ) : Store × Option String :=
  match value with
  | none => (st, none)
  | some v =>
    let wb := download_workbook_or_create st key
    let pr := col_for_pair wb climate aging
    match row_for_year year with
    | .error e => (st, some e)
    | .ok row => (putStore st key (setCell pr.1 row pr.2 (.n v)), none)

/-! ## Batch orchestrator (mm_final_energy_sim.py lines 267-329)

The S3 environment is the list of object keys present in the bucket, in
listing order; the EnergyPlus invocation is an oracle from the artifact key
to either the produced output directory or the message of the raised error
(non-zero exit or timeout, both ordinary exceptions).  The configured
defaults of the environment-variable constants are modelled. -/

def S3_BUCKET : String := "mmstore"

def S3_IDF_PREFIX : String := "output_idf_files/"

def S3_EPW_PREFIX : String := "weather/epw/"

def TOTAL_XLSX_KEY : String := "results_total_site_energy.xlsx"

def PERAREA_XLSX_KEY : String := "results_site_energy_per_area.xlsx"

/-- `index_epws_s3`: scan the keys under the weather prefix, parse each
name against `EPW_NAME_RE`, silently discard non-matching names, and map
`(scenario, year)` to the key, the last listed winning. -/
def index_epws (keys : List String) : List ((String × Nat) × String) :=
  keys.foldl (fun idx key =>
    if strStartsW S3_EPW_PREFIX key then
      match epwNameMatch (lastSlashSeg key) with
      | some (rcp, y) => ((pyUpper rcp, y), key) :: idx
      | none => idx
    else idx) []

/-- `epw_index.get((rcp_nodot, year))`. -/
def lookupEpw (idx : List ((String × Nat) × String)) (k : String × Nat) : Option String :=
  (List.find? (fun e => e.1 = k) idx).map (·.2)

/-- `s.rstrip("/")`. -/
def rstripSlash (s : String) : String :=
  ⟨(s.data.reverse.dropWhile (fun c => c = '/')).reverse⟩

/-- Ascending insertion into a sorted list of keys. -/
def insSorted (x : String) : List String → List String
  | [] => [x]
  | y :: ys => if x ≤ y then x :: y :: ys else y :: insSorted x ys

/-- `sorted(...)` on object keys (lexicographic; the order is total, so the
sorted sequence is the one Python produces). -/
def sortKeys (l : List String) : List String := l.foldr insSorted []

/-- The batch summary dictionary returned by the orchestrator. -/
structure Summary where
  bucket : String
  idfPre : String
  epwPre : String
  resultsTotalKey : String
  resultsPerAreaKey : String
  processed : List String
  success : Nat
  failed : Nat
  total : Nat
deriving DecidableEq

/-- A raised Python error: `SystemExit` derives from `BaseException` only,
every other error raised by this code path derives from `Exception`. -/
inductive PyErr where
  | systemExit (msg : String)
  | exception (msg : String)
deriving DecidableEq

/-- The body of the per-artifact `try` block with its `except Exception`
handler: any failure (parse error, unmatched weather, engine failure,
no metric extracted, year out of range) increments the failure tally and
moves on; a success writes both matrices and records the key. -/
def loopStep (engine : String → Except String OutDir) (epwIdx : List ((String × Nat) × String))
    (acc : Store × Nat × Nat × List String) (idfKey : String) : Store × Nat × Nat × List String :=
  let (st, succ, fails, processed) := acc
  let name := lastSlashSeg idfKey
  match parse_idf_filename name with
  | none => (st, succ, fails + 1, processed)
  | some (rcpDot, aging, year) =>
    let rcpNodot := map_rcp_dot_to_nodot rcpDot
    match lookupEpw epwIdx (rcpNodot, (year : Nat)) with
    | none => (st, succ, fails + 1, processed)
    | some _epwKey =>
      match engine idfKey with
      | .error _ => (st, succ, fails + 1, processed)
      | .ok outdir =>
        let m := fetch_metrics_any outdir
        if m.1 = none ∧ m.2.1 = none then (st, succ, fails + 1, processed)
        else
          let w1 := write_result_to_s3 st TOTAL_XLSX_KEY rcpNodot aging (year : Int) m.1
          match w1.2 with
          | some _ => (w1.1, succ, fails + 1, processed)
          | none =>
            let w2 := write_result_to_s3 w1.1 PERAREA_XLSX_KEY rcpNodot aging (year : Int) m.2.1
            match w2.2 with
            | some _ => (w2.1, succ, fails + 1, processed)
            | none => (w2.1, succ + 1, fails, processed ++ [idfKey])

/-- `run_energy_simulation_from_env`: build the weather index once (fatal
`SystemExit` when empty), list the simulation artifacts (fatal `SystemExit`
when empty), then process each in sorted order, tallying outcomes; returns
the raised error or the summary, together with the resulting object store. -/
def run_energy_simulation_from_env (keys : List String)
    (engine : String → Except String OutDir) (st : Store) : Except PyErr Summary × Store :=
  let epwIdx := index_epws keys
  if epwIdx.isEmpty then
    (.error (.systemExit ("No EPWs under s3://" ++ S3_BUCKET ++ "/" ++ S3_EPW_PREFIX)), st)
  else
    let idfObjs := (keys.filter fun k => strStartsW S3_IDF_PREFIX k).filter
      fun k => strEndsW ".idf" (pyLower k)
    if idfObjs.isEmpty then
      (.error (.systemExit ("No IDFs under s3://" ++ S3_BUCKET ++ "/" ++ S3_IDF_PREFIX)), st)
    else
      let res := (sortKeys idfObjs).foldl (loopStep engine epwIdx) (st, 0, 0, [])
      (.ok { bucket := S3_BUCKET, idfPre := rstripSlash S3_IDF_PREFIX,
             epwPre := rstripSlash S3_EPW_PREFIX, resultsTotalKey := TOTAL_XLSX_KEY,
             resultsPerAreaKey := PERAREA_XLSX_KEY, processed := res.2.2.2.take 10,
             success := res.2.1, failed := res.2.2.1, total := idfObjs.length }, res.1)

/-! ## Run lifecycle adapter (simulation_adapter.py lines 90-168)

The run collection is an association list from run id to record, mutated
under the adapter's lock; the most recent binding wins.  A launched thread
is recorded by its identifier; its completion is the `_exec_run` epilogue,
applied to the outcome of the underlying execution. -/

inductive RState where
  | PENDING
  | INITIALISED
  | RUNNING
  | SUCCEEDED
  | ERROR
deriving DecidableEq

structure RunRecord where
  state : RState
  config : List (String × String)
  thread : Option Nat
  result : Option Summary
  error : Option String
deriving DecidableEq

abbrev Runs := List (String × RunRecord)

def lookupRun (runs : Runs) (runId : String) : Option RunRecord :=
  (List.find? (fun e => e.1 = runId) runs).map (·.2)

def setRun (runs : Runs) (runId : String) (r : RunRecord) : Runs := (runId, r) :: runs

/-- `create_run`: a new record in `PENDING` with an empty config (the fresh
uuid-based id is supplied from outside). -/
def create_run (runs : Runs) (runId : String) : Runs :=
  setRun runs runId ⟨.PENDING, [], none, none, none⟩

/-- `initialise_run`: unknown id raises `KeyError`; from `PENDING` or
`INITIALISED` the state becomes `INITIALISED`; any later state is left
untouched.  The config argument is accepted but never stored. -/
def initialise_run (runs : Runs) (runId : String) (cfg : List (String × String)) :
    Except String (Runs × RunRecord) :=
  match lookupRun runs runId with
  | none => .error ("Run " ++ runId ++ " does not exist")
  | some run =>
    if run.state = .PENDING ∨ run.state = .INITIALISED then
      let run2 : RunRecord := { run with state := .INITIALISED }
      .ok (setRun runs runId run2, run2)
    else .ok (runs, run)

/-- `start_run`: unknown id raises `KeyError`; a `RUNNING` or terminal run is
returned unchanged without launching anything; otherwise the state becomes
`RUNNING` and a background thread is launched (the returned flag). -/
def start_run (runs : Runs) (runId : String) (tid : Nat) :
    Except String (Runs × RunRecord × Bool) :=
  match lookupRun runs runId with
  | none => .error ("Run " ++ runId ++ " does not exist")
  | some run =>
    if run.state = .RUNNING ∨ run.state = .SUCCEEDED ∨ run.state = .ERROR then
      .ok (runs, run, false)
    else
      let run2 : RunRecord := { run with state := .RUNNING, thread := some tid }
      .ok (setRun runs runId run2, run2, true)

/-- The epilogue of `_exec_run` applied to the outcome of the underlying
execution: a returned summary sets `SUCCEEDED` with the result; a raised
`Exception` is caught and sets `ERROR` with its message; a raised
`SystemExit` derives from `BaseException`, escapes the `except Exception`
handler and silently ends the thread, leaving the record as it was. -/
def exec_finish (runs : Runs) (runId : String) (outcome : Except PyErr Summary) : Runs :=
  match outcome with
  | .ok res =>
    match lookupRun runs runId with
    | some run => setRun runs runId { run with state := .SUCCEEDED, result := some res }
    | none => runs
  | .error (.exception msg) =>
    match lookupRun runs runId with
    | some run => setRun runs runId { run with state := .ERROR, error := some msg }
    | none => runs
  | .error (.systemExit _) => runs

/-- `get_run`: the status query; unknown id raises `KeyError`. -/
def get_run (runs : Runs) (runId : String) : Except String RunRecord :=
  match lookupRun runs runId with
  | none => .error ("Run " ++ runId ++ " does not exist")
  | some run => .ok run

/-- `remove_run`: `pop(run_id, None)`, a no-op on an unknown id. -/
def remove_run (runs : Runs) (runId : String) : Runs :=
  runs.filter fun e => e.1 ≠ runId

/-- The adapter operations that mutate the run collection. -/
inductive AOp where
  | create (runId : String)
  | initialise (runId : String) (cfg : List (String × String))
  | start (runId : String) (tid : Nat)
  | finish (runId : String) (outcome : Except PyErr Summary)
  | remove (runId : String)

/-- The run collection after one adapter operation (a raised `KeyError`
leaves the collection untouched). -/
def stepRuns (runs : Runs) : AOp → Runs
  | .create runId => create_run runs runId
  | .initialise runId cfg =>
    match initialise_run runs runId cfg with
    | .ok p => p.1
    | .error _ => runs
  | .start runId tid =>
    match start_run runs runId tid with
    | .ok p => p.1
    | .error _ => runs
  | .finish runId outcome => exec_finish runs runId outcome
  | .remove runId => remove_run runs runId

/-- The state of a run, as the status endpoint reports it. -/
def stateOf (runs : Runs) (runId : String) : Option RState :=
  (lookupRun runs runId).map (·.state)

/-- The side conditions under which the system fires an operation: a created
id is fresh (uuid collisions are excluded), and a completion event belongs
to a thread launched by `start_run`, whose run is `RUNNING` until the
completion itself (or was removed meanwhile). -/
def opOk (runs : Runs) : AOp → Prop
  | .create runId => stateOf runs runId = none
  | .finish runId _ => stateOf runs runId = none ∨ stateOf runs runId = some .RUNNING
  | _ => True

/-! ## Association-list lemmas shared by several claims -/

theorem lookupRun_setRun (runs : Runs) (id1 id2 : String) (r : RunRecord) :
    lookupRun (setRun runs id1 r) id2 = if id1 = id2 then some r else lookupRun runs id2 := by
  unfold lookupRun setRun
  by_cases h : id1 = id2 <;> simp [List.find?, h]

theorem lookupRun_cons (e : String × RunRecord) (l : Runs) (id2 : String) :
    lookupRun (e :: l) id2 = if e.1 = id2 then some e.2 else lookupRun l id2 := by
  unfold lookupRun
  by_cases h : e.1 = id2 <;> simp [List.find?, h]

theorem remove_run_cons (e : String × RunRecord) (l : Runs) (id1 : String) :
    remove_run (e :: l) id1 = if e.1 = id1 then remove_run l id1 else e :: remove_run l id1 := by
  unfold remove_run
  by_cases h : e.1 = id1 <;> simp [List.filter_cons, h]

theorem lookupRun_remove (runs : Runs) (id1 id2 : String) :
    lookupRun (remove_run runs id1) id2 = if id2 = id1 then none else lookupRun runs id2 := by
  induction runs with
  | nil => by_cases h : id2 = id1 <;> simp [lookupRun, remove_run, List.filter, h]
  | cons e rest ih =>
    rw [remove_run_cons]
    by_cases h1 : e.1 = id1
    · rw [if_pos h1, ih, lookupRun_cons]
      by_cases h2 : id2 = id1
      · simp [h2]
      · have h3 : ¬ e.1 = id2 := by rw [h1]; intro hh; exact h2 hh.symm
        simp [h3, h2]
    · rw [if_neg h1, lookupRun_cons, lookupRun_cons, ih]
      by_cases h2 : e.1 = id2
      · have h3 : ¬ id2 = id1 := by rw [← h2]; intro hh; exact h1 hh
        simp [h2, h3]
      · simp [h2]

theorem stepRuns_initialise_none (runs : Runs) (runId : String) (cfg : List (String × String))
    (h : lookupRun runs runId = none) : stepRuns runs (.initialise runId cfg) = runs := by
  simp [stepRuns, initialise_run, h]

theorem stepRuns_initialise_active (runs : Runs) (runId : String) (cfg : List (String × String))
    (run : RunRecord) (h : lookupRun runs runId = some run)
    (hs : run.state = .PENDING ∨ run.state = .INITIALISED) :
    stepRuns runs (.initialise runId cfg) =
      setRun runs runId { run with state := .INITIALISED } := by
  simp [stepRuns, initialise_run, h, hs]

theorem stepRuns_initialise_frozen (runs : Runs) (runId : String) (cfg : List (String × String))
    (run : RunRecord) (h : lookupRun runs runId = some run)
    (hs : ¬(run.state = .PENDING ∨ run.state = .INITIALISED)) :
    stepRuns runs (.initialise runId cfg) = runs := by
  simp [stepRuns, initialise_run, h, hs]

theorem stepRuns_start_none (runs : Runs) (runId : String) (tid : Nat)
    (h : lookupRun runs runId = none) : stepRuns runs (.start runId tid) = runs := by
  simp [stepRuns, start_run, h]

theorem stepRuns_start_settled (runs : Runs) (runId : String) (tid : Nat)
    (run : RunRecord) (h : lookupRun runs runId = some run)
    (hs : run.state = .RUNNING ∨ run.state = .SUCCEEDED ∨ run.state = .ERROR) :
    stepRuns runs (.start runId tid) = runs := by
  simp [stepRuns, start_run, h, hs]

theorem stepRuns_start_go (runs : Runs) (runId : String) (tid : Nat)
    (run : RunRecord) (h : lookupRun runs runId = some run)
    (hs : ¬(run.state = .RUNNING ∨ run.state = .SUCCEEDED ∨ run.state = .ERROR)) :
    stepRuns runs (.start runId tid) =
      setRun runs runId { run with state := .RUNNING, thread := some tid } := by
  simp [stepRuns, start_run, h, hs]

theorem exec_finish_ok (runs : Runs) (runId : String) (res : Summary) (run : RunRecord)
    (h : lookupRun runs runId = some run) :
    exec_finish runs runId (.ok res) =
      setRun runs runId { run with state := .SUCCEEDED, result := some res } := by
  simp [exec_finish, h]

theorem exec_finish_exc (runs : Runs) (runId : String) (msg : String) (run : RunRecord)
    (h : lookupRun runs runId = some run) :
    exec_finish runs runId (.error (.exception msg)) =
      setRun runs runId { run with state := .ERROR, error := some msg } := by
  simp [exec_finish, h]

theorem exec_finish_ok_gone (runs : Runs) (runId : String) (res : Summary)
    (h : lookupRun runs runId = none) : exec_finish runs runId (.ok res) = runs := by
  simp [exec_finish, h]

theorem exec_finish_exc_gone (runs : Runs) (runId : String) (msg : String)
    (h : lookupRun runs runId = none) :
    exec_finish runs runId (.error (.exception msg)) = runs := by
  simp [exec_finish, h]

theorem exec_finish_exit (runs : Runs) (runId : String) (msg : String) :
    exec_finish runs runId (.error (.systemExit msg)) = runs := rfl

theorem getCell_setCell (wb : WB) (r c r2 c2 : Nat) (v : CellValue) :
    getCell (setCell wb r c v) r2 c2 =
      if (r, c) = (r2, c2) then some v else getCell wb r2 c2 := by
  unfold getCell setCell
  by_cases h : (r, c) = (r2, c2) <;> simp [List.find?, h]

theorem maxColW_setCell (wb : WB) (r c : Nat) (v : CellValue) :
    maxColW (setCell wb r c v) = max c (maxColW wb) := rfl

theorem one_le_maxColW (wb : WB) : 1 ≤ maxColW wb := by
  induction wb with
  | nil => exact Nat.le_refl 1
  | cons e rest ih => exact le_trans ih (Nat.le_max_right _ _)

theorem stepRuns_finish (runs : Runs) (runId : String) (outcome : Except PyErr Summary) :
    stepRuns runs (.finish runId outcome) = exec_finish runs runId outcome := rfl

theorem stepRuns_remove (runs : Runs) (runId : String) :
    stepRuns runs (.remove runId) = remove_run runs runId := rfl

theorem stateOf_setRun (runs : Runs) (rid runId : String) (r : RunRecord) :
    stateOf (setRun runs rid r) runId =
      if rid = runId then some r.state else stateOf runs runId := by
  unfold stateOf
  rw [lookupRun_setRun]
  by_cases h : rid = runId <;> simp [h]

theorem stateOf_remove (runs : Runs) (rid runId : String) :
    stateOf (remove_run runs rid) runId =
      if runId = rid then none else stateOf runs runId := by
  unfold stateOf
  rw [lookupRun_remove]
  by_cases h : runId = rid <;> simp [h]

/-! ## Claim C9 -/

/-- The transitions the claim asserts to be the only ones: `PENDING →
INITIALISED`, `INITIALISED → RUNNING`, `RUNNING → SUCCEEDED | ERROR`, plus
every self-loop (covering the absorbing terminal states). -/
def claimedTransition : RState → RState → Bool
  | .PENDING, .INITIALISED => true
  | .INITIALISED, .RUNNING => true
  | .RUNNING, .SUCCEEDED => true
  | .RUNNING, .ERROR => true
  | s, t => decide (s = t)

/-- The transitions the code actually admits: the claimed ones and, in
addition, `PENDING → RUNNING` (starting a run that was never initialised). -/
def amendedTransition : RState → RState → Bool
  | .PENDING, .RUNNING => true
  | s, t => claimedTransition s t

theorem amendedTransition_refl (s : RState) : amendedTransition s s = true := by
  cases s <;> rfl

/-- One run, created and immediately started. -/
def c9Runs0 : Runs := stepRuns [] (.create "r")

def c9Runs1 : Runs := stepRuns c9Runs0 (.start "r" 0)

/-- Counterexample to C9 as stated: starting a freshly created run moves it
from `PENDING` straight to `RUNNING`, a transition missing from the claim's
list. -/
theorem C9_pending_to_running_cx :
    stateOf c9Runs0 "r" = some .PENDING ∧
    stateOf c9Runs1 "r" = some .RUNNING ∧
    claimedTransition .PENDING .RUNNING = false :=
  ⟨rfl, rfl, rfl⟩

/-- C9 (amended with the transition `PENDING → RUNNING`): every adapter
operation fired under the system's discipline moves every run's state along
an admitted transition or leaves it unchanged; `start_run` on a `RUNNING` or
terminal run returns the current record unchanged without launching a
thread; and `initialise_run` changes the state only from `PENDING` or
`INITIALISED`, returning later-state runs untouched. -/
theorem C9_transitions_amended :
    (∀ (runs : Runs) (op : AOp), opOk runs op → ∀ (runId : String) (s t : RState),
      stateOf runs runId = some s → stateOf (stepRuns runs op) runId = some t →
      amendedTransition s t = true)
    ∧ (∀ (runs : Runs) (runId : String) (tid : Nat) (run : RunRecord),
      lookupRun runs runId = some run →
      run.state = .RUNNING ∨ run.state = .SUCCEEDED ∨ run.state = .ERROR →
      start_run runs runId tid = .ok (runs, run, false))
    ∧ (∀ (runs : Runs) (runId : String) (cfg : List (String × String)) (run : RunRecord),
      lookupRun runs runId = some run →
      ¬(run.state = .PENDING ∨ run.state = .INITIALISED) →
      initialise_run runs runId cfg = .ok (runs, run)) := by
  refine ⟨?_, ?_, ?_⟩
  · intro runs op hok runId s t h1 h2
    have hrefl : stateOf (stepRuns runs op) runId = stateOf runs runId →
        amendedTransition s t = true := by
      intro hsame
      rw [hsame, h1] at h2
      rw [Option.some.inj h2]
      exact amendedTransition_refl t
    cases op with
    | create rid =>
      have hok2 : stateOf runs rid = none := hok
      by_cases he : rid = runId
      · subst he
        rw [hok2] at h1
        cases h1
      · apply hrefl
        unfold stepRuns create_run
        rw [stateOf_setRun, if_neg he]
    | initialise rid cfg =>
      cases hl : lookupRun runs rid with
      | none => exact hrefl (by rw [stepRuns_initialise_none runs rid cfg hl])
      | some run =>
        by_cases hs : run.state = .PENDING ∨ run.state = .INITIALISED
        · rw [stepRuns_initialise_active runs rid cfg run hl hs, stateOf_setRun] at h2
          by_cases he : rid = runId
          · rw [if_pos he] at h2
            have ht : t = .INITIALISED := (Option.some.inj h2).symm
            subst he
            have hs2 : some run.state = some s := by
              rw [← h1]; unfold stateOf; rw [hl]; rfl
            have hs3 : run.state = s := Option.some.inj hs2
            subst ht
            rcases hs with hp | hp <;> rw [← hs3, hp] <;> rfl
          · rw [if_neg he] at h2
            rw [h1] at h2
            rw [Option.some.inj h2]
            exact amendedTransition_refl t
        · exact hrefl (by rw [stepRuns_initialise_frozen runs rid cfg run hl hs])
    | start rid tid =>
      cases hl : lookupRun runs rid with
      | none => exact hrefl (by rw [stepRuns_start_none runs rid tid hl])
      | some run =>
        by_cases hs : run.state = .RUNNING ∨ run.state = .SUCCEEDED ∨ run.state = .ERROR
        · exact hrefl (by rw [stepRuns_start_settled runs rid tid run hl hs])
        · rw [stepRuns_start_go runs rid tid run hl hs, stateOf_setRun] at h2
          by_cases he : rid = runId
          · rw [if_pos he] at h2
            have ht : t = .RUNNING := (Option.some.inj h2).symm
            subst he
            have hs2 : some run.state = some s := by
              rw [← h1]; unfold stateOf; rw [hl]; rfl
            have hs3 : run.state = s := Option.some.inj hs2
            subst ht
            rw [← hs3]
            cases hrs : run.state <;> rw [hrs] at hs <;> simp at hs <;> rfl
          · rw [if_neg he] at h2
            rw [h1] at h2
            rw [Option.some.inj h2]
            exact amendedTransition_refl t
    | finish rid outcome =>
      rw [stepRuns_finish] at h2
      cases hl : lookupRun runs rid with
      | none =>
        cases outcome with
        | ok res => exact hrefl (by rw [stepRuns_finish, exec_finish_ok_gone runs rid res hl])
        | error e =>
          cases e with
          | systemExit msg => exact hrefl (by rw [stepRuns_finish, exec_finish_exit])
          | exception msg =>
            exact hrefl (by rw [stepRuns_finish, exec_finish_exc_gone runs rid msg hl])
      | some run =>
        have hrun : run.state = .RUNNING := by
          rcases hok with hn | hr
          · unfold stateOf at hn; rw [hl] at hn; cases hn
          · unfold stateOf at hr; rw [hl] at hr; exact Option.some.inj hr
        cases outcome with
        | ok res =>
          rw [exec_finish_ok runs rid res run hl, stateOf_setRun] at h2
          by_cases he : rid = runId
          · rw [if_pos he] at h2
            have ht : t = .SUCCEEDED := (Option.some.inj h2).symm
            subst he
            have hs2 : some run.state = some s := by
              rw [← h1]; unfold stateOf; rw [hl]; rfl
            rw [← Option.some.inj hs2, hrun]
            subst ht
            rfl
          · rw [if_neg he] at h2
            rw [h1] at h2
            rw [Option.some.inj h2]
            exact amendedTransition_refl t
        | error e =>
          cases e with
          | systemExit msg => exact hrefl (by rw [stepRuns_finish, exec_finish_exit])
          | exception msg =>
            rw [exec_finish_exc runs rid msg run hl, stateOf_setRun] at h2
            by_cases he : rid = runId
            · rw [if_pos he] at h2
              have ht : t = .ERROR := (Option.some.inj h2).symm
              subst he
              have hs2 : some run.state = some s := by
                rw [← h1]; unfold stateOf; rw [hl]; rfl
              rw [← Option.some.inj hs2, hrun]
              subst ht
              rfl
            · rw [if_neg he] at h2
              rw [h1] at h2
              rw [Option.some.inj h2]
              exact amendedTransition_refl t
    | remove rid =>
      rw [stepRuns_remove, stateOf_remove] at h2
      by_cases he : runId = rid
      · rw [if_pos he] at h2
        cases h2
      · rw [if_neg he] at h2
        rw [h1] at h2
        rw [Option.some.inj h2]
        exact amendedTransition_refl t
  · intro runs runId tid run h hs
    simp [start_run, h, hs]
  · intro runs runId cfg run h hs
    simp [initialise_run, h, hs]

/-- Witness for C9: the amended transition relation, exercised at the
concrete `PENDING → RUNNING` step of a freshly created and started run. -/
theorem C9_transitions_amended_witness : amendedTransition .PENDING .RUNNING = true :=
  C9_transitions_amended.1 c9Runs0 (.start "r" 0) trivial "r" .PENDING .RUNNING rfl rfl

/-! ## Claim C3 -/

/-- C3: the extraction chain tries the strategies in the fixed order
structured (`sql`), tab, comma (`csv`), returns the result of the first
strategy yielding at least one non-absent value tagged with its format —
never attempting a later one — and yields `(none, none, "none")` when no
strategy yields a value.  The code function coincides with the spec's
first-success fallback on every output directory; in particular a directory
holding only the comma report yields format `csv` with the report's values,
and a directory whose structured file yields values takes priority over
both text reports. -/
theorem C3_extraction_fallback :
    (∀ d : OutDir, fetch_metrics_any d = extractMetricsSpec d) ∧
    fetch_metrics_any ⟨none, none, some egCsvRows⟩ =
      (safe_float "1235", safe_float "45", "csv") ∧
    fetch_metrics_any ⟨some egSqlDb, some egCsvRows, some egCsvRows⟩ =
      (safe_float "450.5", safe_float "1202.75", "sql") ∧
    fetch_metrics_any ⟨none, none, none⟩ = (none, none, "none") := by
  refine ⟨?_, rfl, rfl, rfl⟩
  intro d
  obtain ⟨sqlF, tabF, csvF⟩ := d
  cases sqlF with
  | none =>
    by_cases h1 : (fetch_from_tabular_text tabF).1.isSome ||
        (fetch_from_tabular_text tabF).2.isSome
    · simp [fetch_metrics_any, extractMetricsSpec, stratList, List.find?, h1,
        show fetch_from_sql none = ((none : Option ℚ), (none : Option ℚ)) from rfl]
    · by_cases h2 : (fetch_from_tabular_text csvF).1.isSome ||
          (fetch_from_tabular_text csvF).2.isSome <;>
        simp [fetch_metrics_any, extractMetricsSpec, stratList, List.find?, h1, h2,
          show fetch_from_sql none = ((none : Option ℚ), (none : Option ℚ)) from rfl]
  | some db =>
    by_cases h0 : (fetch_from_sql (some db)).1.isSome || (fetch_from_sql (some db)).2.isSome
    · simp [fetch_metrics_any, extractMetricsSpec, stratList, List.find?, h0]
    · by_cases h1 : (fetch_from_tabular_text tabF).1.isSome ||
          (fetch_from_tabular_text tabF).2.isSome
      · simp [fetch_metrics_any, extractMetricsSpec, stratList, List.find?, h0, h1]
      · by_cases h2 : (fetch_from_tabular_text csvF).1.isSome ||
            (fetch_from_tabular_text csvF).2.isSome <;>
          simp [fetch_metrics_any, extractMetricsSpec, stratList, List.find?, h0, h1, h2]

/-! ## Claim C4 -/

/-- An element read by `getD` is a member of the list or the default. -/
theorem getD_mem_or {α : Type} (l : List α) (i : Nat) (d : α) :
    l.getD i d ∈ l ∨ l.getD i d = d := by
  induction l generalizing i with
  | nil => right; cases i <;> rfl
  | cons x xs ih =>
    cases i with
    | zero => left; simp
    | succ n =>
      rcases ih n with h | h
      · left; exact List.mem_cons_of_mem x (by simpa using h)
      · right; simpa using h

theorem iScan_none (rows : List (List String))
    (h : ∀ i : Nat,
      rowHasPhrase "annual building utility performance summary" (rows.getD i []) = false) :
    ∀ js : List Nat, iScan rows js = none := by
  intro js
  induction js with
  | nil => rfl
  | cons i rest ih =>
    unfold iScan
    rw [h i]
    simpa using ih

/-- No cell of any row contains the section-title phrase (after the
stripping applied at load). -/
def noTitleRows (raw : List (List String)) : Prop :=
  ∀ r ∈ raw, ∀ c ∈ r,
    pyInStr "annual building utility performance summary" (pyLower (pyStrip c)) = false

instance (raw : List (List String)) : Decidable (noTitleRows raw) := by
  unfold noTitleRows
  infer_instance

/-- A complete table whose subsection row sits exactly 39 rows after the
title row (the last row the code's window reaches). -/
def sub39Rows : List (List String) :=
  [["Annual Building Utility Performance Summary"]] ++ List.replicate 38 (["x"] : List String) ++
  [["Site and Source Energy"],
   ["", "Total Energy [kWh]", "Energy Per Total Building Area [kWh/m2]"],
   ["Total Site Energy", "1235", "45"]]

/-- The same table with the subsection row 40 rows after the title row: one
past the window the code scans. -/
def sub40Rows : List (List String) :=
  [["Annual Building Utility Performance Summary"]] ++ List.replicate 39 (["x"] : List String) ++
  [["Site and Source Energy"],
   ["", "Total Energy [kWh]", "Energy Per Total Building Area [kWh/m2]"],
   ["Total Site Energy", "1235", "45"]]

/-- A complete table whose header row sits exactly 14 rows after the
subsection row (the last row the code's inner window reaches). -/
def hdr14Rows : List (List String) :=
  [["Annual Building Utility Performance Summary"], ["Site and Source Energy"]] ++
  List.replicate 13 (["x"] : List String) ++
  [["", "Total Energy [kWh]", "Energy Per Total Building Area [kWh/m2]"],
   ["Total Site Energy", "1235", "45"]]

/-- The same table with the header row 15 rows after the subsection row: one
past the inner window. -/
def hdr15Rows : List (List String) :=
  [["Annual Building Utility Performance Summary"], ["Site and Source Energy"]] ++
  List.replicate 14 (["x"] : List String) ++
  [["", "Total Energy [kWh]", "Energy Per Total Building Area [kWh/m2]"],
   ["Total Site Energy", "1235", "45"]]

/-- Counterexample to C4 as stated: a report whose subsection row lies
within the following 40 rows of the title row (at offset exactly 40), with a
valid header and data row right after it, is nonetheless not extracted —
the code's window covers only the following 39 rows. -/
theorem C4_window40_cx :
    sub40Rows.getD 0 [] = ["Annual Building Utility Performance Summary"] ∧
    sub40Rows.getD 40 [] = ["Site and Source Energy"] ∧
    sub40Rows.getD 41 [] =
      ["", "Total Energy [kWh]", "Energy Per Total Building Area [kWh/m2]"] ∧
    sub40Rows.getD 42 [] = ["Total Site Energy", "1235", "45"] ∧
    (safe_float "1235").isSome = true ∧
    fetch_from_tabular_text (some sub40Rows) = (none, none) :=
  ⟨rfl, rfl, rfl, rfl, rfl, rfl⟩

/-- C4 (amended: the windows are 39 and 14 rows, the half-open ranges
`range(i+1, i+40)` and `range(j+1, j+15)`): the subsection phrase is found
only within the 39 rows following the title row, the header row only within
the 14 rows following the subsection row — both boundary offsets behave as
stated — and absence of any required marker yields `(none, none)` rather
than an error, in particular whenever no row contains the title phrase. -/
theorem C4_marker_windows :
    (∀ raw, noTitleRows raw → fetch_from_tabular_text (some raw) = (none, none)) ∧
    fetch_from_tabular_text (some sub39Rows) = (safe_float "1235", safe_float "45") ∧
    fetch_from_tabular_text (some sub40Rows) = (none, none) ∧
    fetch_from_tabular_text (some hdr14Rows) = (safe_float "1235", safe_float "45") ∧
    fetch_from_tabular_text (some hdr15Rows) = (none, none) := by
  refine ⟨?_, rfl, rfl, rfl, rfl⟩
  intro raw h
  have hrows : ∀ i : Nat,
      rowHasPhrase "annual building utility performance summary"
        ((raw.map fun r => r.map pyStrip).getD i []) = false := by
    intro i
    rcases getD_mem_or (raw.map fun r => r.map pyStrip) i [] with hmem | hdef
    · obtain ⟨r, hr, hreq⟩ := List.mem_map.mp hmem
      rw [← hreq]
      unfold rowHasPhrase
      apply List.any_eq_false.mpr
      intro c hc
      obtain ⟨c0, hc0, hceq⟩ := List.mem_map.mp hc
      rw [← hceq]
      simp [h r hr c0 hc0]
    · rw [hdef]
      rfl
  show ((iScan (raw.map fun r => r.map pyStrip)
      (List.range (raw.map fun r => r.map pyStrip).length)).getD (none, none)) = (none, none)
  rw [iScan_none _ hrows]
  rfl

/-- Witness for C4 at a concrete one-row report with no title marker. -/
theorem C4_marker_windows_witness :
    fetch_from_tabular_text (some [["x"]]) = (none, none) :=
  C4_marker_windows.1 [["x"]] (by decide)

/-! ## Claim C6 -/

theorem scanCols_append (wb : WB) (c a : String) (l1 l2 : List Nat) :
    scanCols wb c a (l1 ++ l2) =
      match scanCols wb c a l1 with
      | some col => some col
      | none => scanCols wb c a l2 := by
  induction l1 with
  | nil => simp [scanCols]
  | cons x xs ih =>
    by_cases h : hdrCell wb 1 x = c ∧ hdrCell wb 2 x = a <;> simp [scanCols, h, ih]

theorem scanCols_congr (wb1 wb2 : WB) (c a : String) (js : List Nat)
    (h : ∀ x ∈ js, hdrCell wb1 1 x = hdrCell wb2 1 x ∧ hdrCell wb1 2 x = hdrCell wb2 2 x) :
    scanCols wb1 c a js = scanCols wb2 c a js := by
  induction js with
  | nil => rfl
  | cons x xs ih =>
    have hx := h x (by simp)
    have hrest := fun y hy => h y (List.mem_cons_of_mem x hy)
    simp only [scanCols]
    rw [hx.1, hx.2, ih hrest]

theorem scanCols_none_mem (wb : WB) (c a : String) :
    ∀ (js : List Nat), scanCols wb c a js = none →
      ∀ x ∈ js, ¬(hdrCell wb 1 x = c ∧ hdrCell wb 2 x = a) := by
  intro js
  induction js with
  | nil => intro _ x hx; cases hx
  | cons y ys ih =>
    intro h x hx
    unfold scanCols at h
    by_cases hy : hdrCell wb 1 y = c ∧ hdrCell wb 2 y = a
    · rw [if_pos hy] at h; cases h
    · rw [if_neg hy] at h
      rcases List.mem_cons.mp hx with h1 | h1
      · subst h1; exact hy
      · exact ih h x h1

theorem col_for_pair_found (wb : WB) (climate aging : String) (col : Nat)
    (h : scanCols wb climate aging (List.range' 2 (maxColW wb - 1)) = some col) :
    col_for_pair wb climate aging = (wb, col) := by
  simp only [col_for_pair]
  rw [h]

theorem col_for_pair_new (wb : WB) (climate aging : String)
    (h : scanCols wb climate aging (List.range' 2 (maxColW wb - 1)) = none) :
    col_for_pair wb climate aging =
      (setCell (setCell wb 1 (if 2 ≤ maxColW wb then maxColW wb + 1 else 2) (.s climate))
         2 (if 2 ≤ maxColW wb then maxColW wb + 1 else 2) (.s aging),
       if 2 ≤ maxColW wb then maxColW wb + 1 else 2) := by
  simp only [col_for_pair]
  rw [h]

/-- The data columns of a worksheet: the scan range of `_col_for_pair`. -/
def colsRange (wb : WB) : List Nat := List.range' 2 (maxColW wb - 1)

/-- No two data columns of the worksheet carry an identical stripped
`(scenario, agingCode)` header pair. -/
def noDupHeaders (wb : WB) : Prop :=
  ∀ c1 ∈ colsRange wb, ∀ c2 ∈ colsRange wb, c1 ≠ c2 →
    (hdrCell wb 1 c1, hdrCell wb 2 c1) ≠ (hdrCell wb 1 c2, hdrCell wb 2 c2)

instance (wb : WB) : Decidable (noDupHeaders wb) := by
  unfold noDupHeaders
  infer_instance

/-- C6 (amended): for arguments carrying no surrounding whitespace — which
all callers provide, the tokens coming from the filename pattern — column
resolution is idempotent on every matrix state: the second identical call
returns the same column index and leaves the worksheet unchanged, and one
call preserves the no-duplicate-header invariant. -/
theorem C6_resolve_idempotent (wb : WB) (climate aging : String)
    (h1 : pyStrip climate = climate) (h2 : pyStrip aging = aging) (h3 : noDupHeaders wb) :
    (col_for_pair (col_for_pair wb climate aging).1 climate aging).2 =
      (col_for_pair wb climate aging).2 ∧
    (col_for_pair (col_for_pair wb climate aging).1 climate aging).1 =
      (col_for_pair wb climate aging).1 ∧
    noDupHeaders (col_for_pair wb climate aging).1 := by
  cases hscan : scanCols wb climate aging (List.range' 2 (maxColW wb - 1)) with
  | some col =>
    have e1 := col_for_pair_found wb climate aging col hscan
    rw [e1]
    show (col_for_pair wb climate aging).2 = col ∧
      (col_for_pair wb climate aging).1 = wb ∧ noDupHeaders wb
    rw [e1]
    exact ⟨rfl, rfl, h3⟩
  | none =>
    have hmc : 1 ≤ maxColW wb := one_le_maxColW wb
    set col : Nat := if 2 ≤ maxColW wb then maxColW wb + 1 else 2 with hcol
    set ws1 : WB := setCell (setCell wb 1 col (.s climate)) 2 col (.s aging) with hws
    have e1 : col_for_pair wb climate aging = (ws1, col) :=
      col_for_pair_new wb climate aging hscan
    have hcol2 : 2 ≤ col := by
      rw [hcol]; by_cases hc : 2 ≤ maxColW wb <;> simp [hc] <;> omega
    have hwle : maxColW wb ≤ col := by
      rw [hcol]; by_cases hc : 2 ≤ maxColW wb <;> simp [hc] <;> omega
    have hmax1 : maxColW ws1 = col := by
      rw [hws, maxColW_setCell, maxColW_setCell, Nat.max_eq_left hwle, Nat.max_self]
    have hhdr1 : hdrCell ws1 1 col = climate := by
      rw [hws]
      unfold hdrCell
      rw [getCell_setCell, if_neg (by intro hc; cases hc), getCell_setCell, if_pos rfl]
      exact h1
    have hhdr2 : hdrCell ws1 2 col = aging := by
      rw [hws]
      unfold hdrCell
      rw [getCell_setCell, if_pos rfl]
      exact h2
    have hout : ∀ (r x : Nat), x ≠ col → hdrCell ws1 r x = hdrCell wb r x := by
      intro r x hx
      rw [hws]
      unfold hdrCell
      rw [getCell_setCell, if_neg (by intro hc; cases hc; exact hx rfl),
        getCell_setCell, if_neg (by intro hc; cases hc; exact hx rfl)]
    have hmemlt : ∀ x ∈ List.range' 2 (maxColW wb - 1), x ≠ col := by
      intro x hx
      have hb := List.mem_range'.mp hx
      rw [hcol]
      by_cases hc : 2 ≤ maxColW wb <;> simp [hc] <;> omega
    have hscan1 : scanCols ws1 climate aging (List.range' 2 (maxColW wb - 1)) = none := by
      rw [scanCols_congr ws1 wb climate aging _
        (fun x hx => ⟨hout 1 x (hmemlt x hx), hout 2 x (hmemlt x hx)⟩)]
      exact hscan
    have hr : List.range' 2 (col - 1) = List.range' 2 (maxColW wb - 1) ++ [col] := by
      have hsplit : col - 1 = (maxColW wb - 1) + 1 := by
        rw [hcol]; by_cases hc : 2 ≤ maxColW wb <;> simp [hc] <;> omega
      rw [hsplit, List.range'_concat]
      have hlast : 2 + 1 * (maxColW wb - 1) = col := by
        rw [hcol]; by_cases hc : 2 ≤ maxColW wb <;> simp [hc] <;> omega
      rw [hlast]
    have e2 : col_for_pair ws1 climate aging = (ws1, col) := by
      simp only [col_for_pair]
      rw [hmax1, hr, scanCols_append, hscan1]
      simp [scanCols, hhdr1, hhdr2]
    rw [e1]
    show (col_for_pair ws1 climate aging).2 = col ∧
      (col_for_pair ws1 climate aging).1 = ws1 ∧ noDupHeaders ws1
    refine ⟨by rw [e2], by rw [e2], ?_⟩
    have hcr : colsRange ws1 = List.range' 2 (maxColW wb - 1) ++ [col] := by
      unfold colsRange
      rw [hmax1, hr]
    intro x hx y hy hxy
    rw [hcr] at hx hy
    rcases List.mem_append.mp hx with hxo | hxc
    · rcases List.mem_append.mp hy with hyo | hyc
      · rw [hout 1 x (hmemlt x hxo), hout 2 x (hmemlt x hxo),
          hout 1 y (hmemlt y hyo), hout 2 y (hmemlt y hyo)]
        exact h3 x hxo y hyo hxy
      · have hyc2 : y = col := by simpa using hyc
        subst hyc2
        rw [hout 1 x (hmemlt x hxo), hout 2 x (hmemlt x hxo), hhdr1, hhdr2]
        intro hcontr
        have hpair : hdrCell wb 1 x = climate ∧ hdrCell wb 2 x = aging := by
          have hfst := congrArg Prod.fst hcontr
          have hsnd := congrArg Prod.snd hcontr
          exact ⟨hfst, hsnd⟩
        exact scanCols_none_mem wb climate aging _ hscan x hxo hpair
    · have hxc2 : x = col := by simpa using hxc
      subst hxc2
      rcases List.mem_append.mp hy with hyo | hyc
      · rw [hout 1 y (hmemlt y hyo), hout 2 y (hmemlt y hyo), hhdr1, hhdr2]
        intro hcontr
        have hpair : hdrCell wb 1 y = climate ∧ hdrCell wb 2 y = aging := by
          have hfst := congrArg Prod.fst hcontr
          have hsnd := congrArg Prod.snd hcontr
          exact ⟨hfst.symm, hsnd.symm⟩
        exact scanCols_none_mem wb climate aging _ hscan y hyo hpair
      · have hyc2 : y = col := by simpa using hyc
        subst hyc2
        exact absurd rfl hxy

/-- Witness for C6 at a concrete empty worksheet and whitespace-free pair. -/
theorem C6_resolve_idempotent_witness :
    (col_for_pair (col_for_pair ([] : WB) "RCP85" "E1").1 "RCP85" "E1").2 =
      (col_for_pair ([] : WB) "RCP85" "E1").2 ∧
    (col_for_pair (col_for_pair ([] : WB) "RCP85" "E1").1 "RCP85" "E1").1 =
      (col_for_pair ([] : WB) "RCP85" "E1").1 ∧
    noDupHeaders (col_for_pair ([] : WB) "RCP85" "E1").1 :=
  C6_resolve_idempotent [] "RCP85" "E1" rfl rfl (by decide)

/-- Counterexample to C6 as stated: with an argument carrying a leading
space, the header is written raw but compared stripped, so the second
identical call does not find the first column and appends a duplicate:
the two calls return different column indices, and the resulting worksheet
holds two columns with an identical header pair. -/
theorem C6_whitespace_cx :
    (col_for_pair ([] : WB) " X" "A").2 = 2 ∧
    (col_for_pair (col_for_pair ([] : WB) " X" "A").1 " X" "A").2 = 3 ∧
    hdrCell (col_for_pair (col_for_pair ([] : WB) " X" "A").1 " X" "A").1 1 2 =
      hdrCell (col_for_pair (col_for_pair ([] : WB) " X" "A").1 " X" "A").1 1 3 ∧
    hdrCell (col_for_pair (col_for_pair ([] : WB) " X" "A").1 " X" "A").1 2 2 =
      hdrCell (col_for_pair (col_for_pair ([] : WB) " X" "A").1 " X" "A").1 2 3 :=
  ⟨rfl, rfl, rfl, rfl⟩

/-! ## Claim C7 -/

/-- C7: for every object store, matrix key, scenario, aging code and year,
writing an absent metric value is a no-op: it neither creates nor mutates
any cell, never writes a placeholder zero, and leaves the persisted store
exactly as it was, raising no error. -/
theorem C7_absent_value_noop (st : Store) (key climate aging : String) (year : Int) :
    write_result_to_s3 st key climate aging year none = (st, none) := rfl

/-! ## Claim C8 -/

/-- C8: two scenario strings denoting the same scenario, one in dotted form
and one in undotted form (for each of the three scenarios, in any letter
case), normalize to the same canonical value. -/
theorem C8_normalization_agrees (s1 s2 : String)
    (h : (pyUpper s1 = "RCP8.5" ∧ pyUpper s2 = "RCP85") ∨
         (pyUpper s1 = "RCP4.5" ∧ pyUpper s2 = "RCP45") ∨
         (pyUpper s1 = "RCP2.6" ∧ pyUpper s2 = "RCP26")) :
    map_rcp_dot_to_nodot s1 = map_rcp_dot_to_nodot s2 := by
  unfold map_rcp_dot_to_nodot
  rcases h with ⟨h1, h2⟩ | ⟨h1, h2⟩ | ⟨h1, h2⟩ <;> rw [h1, h2] <;> rfl

/-- Witness for C8 at the concrete pair of the claim's example. -/
theorem C8_normalization_agrees_witness :
    map_rcp_dot_to_nodot "rcp8.5" = map_rcp_dot_to_nodot "RCP85" :=
  C8_normalization_agrees "rcp8.5" "RCP85" (Or.inl ⟨rfl, rfl⟩)

/-! ## Claim C2 -/

/-- C2: evaluation of the filename parser at the boundary of the aging-code
range.  The claim (and the spec) bound the aging number by 28, but the first
regex alternative `[12]?\d` matches any two-digit number up to 29, making
the bounded alternative `2[0-8]` unreachable: `E29` parses successfully,
while numbers from 30 on fail as the claim expects. -/
theorem C2_aging_bound_eval :
    parse_idf_filename "RCP8.5_E29_2030.idf" = some ("RCP8.5", "E29", 2030) ∧
    parse_idf_filename "RCP8.5_E28_2030.idf" = some ("RCP8.5", "E28", 2030) ∧
    parse_idf_filename "RCP8.5_E30_2030.idf" = none ∧
    parse_idf_filename "RCP8.5_E0_2030.idf" = some ("RCP8.5", "E0", 2030) :=
  ⟨rfl, rfl, rfl, rfl⟩

/-! ## Claim C1 -/

/-- A bucket holding one simulation artifact and no weather artifact at all:
the weather index built from it is empty. -/
def c1Keys : List String := ["output_idf_files/RCP8.5_E1_2030.idf"]

/-- An engine oracle for runs that never reach an engine invocation. -/
def idleEngine : String → Except String OutDir := fun _ => .error "not invoked"

/-- The outcome of the underlying execution on the weatherless bucket. -/
def c1Outcome : Except PyErr Summary :=
  (run_energy_simulation_from_env c1Keys idleEngine []).1

/-- The run collection after creating and starting one run whose execution
produced `c1Outcome`. -/
def c1Final : Runs :=
  stepRuns (stepRuns (stepRuns ([] : Runs) (.create "run-1")) (.start "run-1" 0))
    (.finish "run-1" c1Outcome)

/-- C1: the code contradicts the claim.  The execution on an empty weather
index raises `SystemExit` (which derives from `BaseException`), the
`except Exception` handler of `_exec_run` does not catch it, so the run
record is never moved to `ERROR`: a subsequent status query still reports
`RUNNING`. -/
theorem C1_empty_weather_index_eval :
    c1Outcome = .error (.systemExit "No EPWs under s3://mmstore/weather/epw/") ∧
    stateOf c1Final "run-1" = some .RUNNING ∧
    stateOf c1Final "run-1" ≠ some .ERROR := by
  have h2 : stateOf c1Final "run-1" = some .RUNNING := rfl
  exact ⟨rfl, h2, by rw [h2]; simp⟩

/-! ## Claim C5 -/

theorem yearMsg_closed (y : Int) :
    "Year " ++ toString y ++ " outside [" ++ toString YEARS_START ++ ", " ++
        toString YEARS_END ++ "]" =
      "Year " ++ toString y ++ " outside [2025, 2084]" := by
  rw [String.append_assoc, String.append_assoc, String.append_assoc, String.append_assoc]
  rfl

/-- C5: writing a present metric value for a year strictly outside the fixed
range fails with the year-out-of-range error and performs no mutation of the
persisted store. -/
theorem C5_year_out_of_range_no_mutation (st : Store) (key climate aging : String)
    (year : Int) (q : ℚ) (h : year < YEARS_START ∨ year > YEARS_END) :
    write_result_to_s3 st key climate aging year (some q) =
      (st, some ("Year " ++ toString year ++ " outside [2025, 2084]")) := by
  have hrow : row_for_year year =
      .error ("Year " ++ toString year ++ " outside [2025, 2084]") := by
    unfold row_for_year
    rw [if_pos h, yearMsg_closed]
  unfold write_result_to_s3
  rw [hrow]

/-- Witness for C5 at a concrete out-of-range year. -/
theorem C5_year_out_of_range_no_mutation_witness :
    write_result_to_s3 ([] : Store) "results_total_site_energy.xlsx" "RCP85" "E1" 2090
        (some 5) = ([], some ("Year " ++ toString (2090 : Int) ++ " outside [2025, 2084]")) :=
  C5_year_out_of_range_no_mutation [] "results_total_site_energy.xlsx" "RCP85" "E1" 2090 5
    (Or.inr (by decide))

/-! ## Claim C10 -/

/-- C10: the configuration passed to `initialise_run` is never recorded: the
config field of every run record is unchanged by the call, and at creation it
is the empty mapping — so it remains empty however the run is initialised. -/
theorem C10_config_never_stored (runs : Runs) (runId runId2 : String)
    (cfg : List (String × String)) :
    (lookupRun (stepRuns runs (.initialise runId cfg)) runId2).map (fun r => r.config) =
      (lookupRun runs runId2).map (fun r => r.config) ∧
    (lookupRun (create_run runs runId) runId).map (fun r => r.config) = some [] := by
  constructor
  · cases hl : lookupRun runs runId with
    | none => rw [stepRuns_initialise_none runs runId cfg hl]
    | some run =>
      by_cases hs : run.state = .PENDING ∨ run.state = .INITIALISED
      · rw [stepRuns_initialise_active runs runId cfg run hl hs, lookupRun_setRun]
        by_cases he : runId = runId2
        · subst he; rw [hl]; simp
        · simp [he]
      · rw [stepRuns_initialise_frozen runs runId cfg run hl hs]
  · unfold create_run
    rw [lookupRun_setRun]
    simp
